import Mathlib

/-!
Verification of the query-resolution and resilient-retrieval pipeline of
`intelligent_scraper.py` (class `ShorthornApiScraper`).

The embedding is shallow: the relevant Python functions are translated into
pure Lean functions.  External effects are explicit inputs:

* the natural-language interpreter (`AIProcessor.interpret_command`) is
  modelled by an `InterpResult` value handed to `search`;
* the HTTP round trip (`requests.get` + `raise_for_status`) is modelled by an
  environment `env : Params → HttpResult` mapping the request parameters to
  either a raised transport exception or a `(status, body)` response;
* the `pandas.read_html` calls are modelled by abstract table-extraction
  strategies `String → Except String (List (DataFrame α))` — one per flavor
  in the list `["html5lib", "bs4", "lxml"]` — plus one flavor-unspecified
  generic attempt, each returning either an exception message or a list of
  extracted data frames.
-/

/-- Python substring scan helper: does the list start with the given needle. -/
def startsWith : List Char → List Char → Bool
  | [], _ => true
  | _ :: _, [] => false
  | a :: as, b :: bs => a == b && startsWith as bs

/-- Python substring scan helper: does the needle occur anywhere in the list. -/
def listContains (needle : List Char) : List Char → Bool
  | [] => needle.isEmpty
  | c :: cs => startsWith needle (c :: cs) || listContains needle cs

/-- Python `needle in hay` substring membership test on strings. -/
def containsSubstr (hay needle : String) : Bool :=
  listContains needle.data hay.data

/-- Python `str.lower()` (ASCII case folding, as used on the HTML body). -/
def strLower (s : String) : String :=
  String.mk (s.data.map Char.toLower)

/-- One entry of `LOCATION_DATA`: the country `api_code` used verbatim on the
wire and the mapping from lowercase province name to its short code. -/
structure LocationEntry where
  api_code : String
  provinces : List (String × String)
deriving DecidableEq

/-- The static location registry `LOCATION_DATA` from `intelligent_scraper.py`. -/
def LOCATION_DATA : List (String × LocationEntry) :=
  [("united states",
    ⟨"United States",
     [("alabama", "AL"), ("arizona", "AZ"), ("arkansas", "AR"), ("california", "CA"),
      ("colorado", "CO"), ("delaware", "DE"), ("florida", "FL"), ("georgia", "GA"),
      ("idaho", "ID"), ("illinois", "IL"), ("indiana", "IN"), ("iowa", "IA"),
      ("kansas", "KS"), ("kentucky", "KY"), ("louisiana", "LA"), ("maine", "ME"),
      ("maryland", "MD"), ("michigan", "MI"), ("minnesota", "MN"), ("mississippi", "MS"),
      ("missouri", "MO"), ("montana", "MT"), ("nebraska", "NE"), ("nevada", "NV"),
      ("new hampshire", "NH"), ("new jersey", "NJ"), ("new mexico", "NM"), ("new york", "NY"),
      ("north carolina", "NC"), ("north dakota", "ND"), ("ohio", "OH"), ("oklahoma", "OK"),
      ("oregon", "OR"), ("pennsylvania", "PA"), ("south carolina", "SC"), ("south dakota", "SD"),
      ("tennessee", "TN"), ("texas", "TX"), ("utah", "UT"), ("virginia", "VA"),
      ("washington", "WA"), ("wisconsin", "WI"), ("wyoming", "WY")]⟩),
   ("canada",
    ⟨"Canada",
     [("alberta", "AB"), ("ontario", "ON"), ("quebec", "QC"), ("saskatchewan", "SK")]⟩),
   ("argentina", ⟨"Argentina", []⟩)]

/-- The primary sentinel list `no_results_indicators` from `_call_api`. -/
def no_results_indicators : List String :=
  ["No records found matching your criteria",
   "No records found",
   "No results found",
   "0 records found"]

/-- The secondary, lowercased sentinel patterns checked in `_call_api` after
all table-extraction strategies have failed. -/
def secondary_indicators : List String :=
  ["no data", "empty", "no results", "not found"]

/-- A `pandas` data frame as consumed by `_call_api`: ordered column labels and
the cell values, row major.  Cells are kept at an abstract type `α`; the code
coerces every label and cell to text (`str(col)` / `.astype(str)`), modelled by
an explicit coercion function passed to `callApi`. -/
structure DataFrame (α : Type) where
  columns : List α
  values : List (List α)
deriving DecidableEq

/-- A data frame is rectangular: every row has one cell per column.  This is an
invariant `pandas` guarantees for every `DataFrame` it returns. -/
def DataFrame.Rect {α : Type} (df : DataFrame α) : Prop :=
  ∀ r ∈ df.values, r.length = df.columns.length

/-- Outcome of one `requests.get` call, as observed by `_call_api`: either the
transport layer raised a `RequestException` before a response was obtained, or
a response with a status code and a body text arrived. -/
inductive HttpResult where
  | exc (msg : String)
  | resp (status : Nat) (body : String)
deriving DecidableEq

/-- Modelled from the documented behaviour of `requests`:
`response.raise_for_status()` raises an `HTTPError` exactly for 4xx and 5xx
status codes. -/
def raiseForStatus (status : Nat) : Bool :=
  decide (400 ≤ status ∧ status < 600)

/-- Abstraction of the `HTTPError` message produced by `raise_for_status`; it
depends only on the status code, never on the body. -/
def httpErrorMsg (status : Nat) : String :=
  toString status ++ " Error"

/-- Python `str(e)` on the recorded `parse_error`, which is `None` when no
strategy ever raised. -/
def pyStr : Option String → String
  | Option.none => "None"
  | some s => s

/-- Result dict returned by `search` / `_call_api`: either a
`{"header": ..., "data": ...}` result, an `{"error": ..., "details": ...}`
object (details key only ever set by the interpretation failure branch), or an
uncaught Python exception escaping the call. -/
inductive Outcome where
  | result (header : List String) (data : List (List String))
  | error (msg : String) (details : Option String)
  | crash (exc : String)
deriving DecidableEq

/-- The flavor loop of `_call_api`: try each strategy in order, remembering the
most recent exception in `parse_error`; `break` at the first strategy that does
not raise, leaving `df_list` set to its output. -/
def tryFlavors {α : Type} (body : String) :
    List (String → Except String (List (DataFrame α))) → Option String →
    Option (List (DataFrame α)) × Option String
  | [], perr => (Option.none, perr)
  | s :: rest, perr =>
    match s body with
    | Except.ok ts => (some ts, perr)
    | Except.error e => tryFlavors body rest (some e)

/-- Lines 157-175 of `_call_api`: run the flavor loop; if every flavor raised
(`df_list is None`), fall back to the single flavor-unspecified generic
attempt, recording its exception on failure.  Returns `(df_list, parse_error)`. -/
def extractTables {α : Type} (strats : List (String → Except String (List (DataFrame α))))
    (generic : String → Except String (List (DataFrame α))) (body : String) :
    Option (List (DataFrame α)) × Option String :=
  match tryFlavors body strats Option.none with
  | (some ts, perr) => (some ts, perr)
  | (Option.none, perr) =>
    match generic body with
    | Except.ok ts => (some ts, perr)
    | Except.error e => (Option.none, some e)

/-- Lines 177-188 of `_call_api`: no table was extracted; scan the lowercased
body for the secondary sentinel patterns, returning the empty result on a
match and the wrapped parse error otherwise. -/
def emptyOrParseFailure (body : String) (perr : Option String) : Outcome :=
  if secondary_indicators.any (fun p => containsSubstr (strLower body) p) then
    Outcome.result [] []
  else
    Outcome.error ("Gagal mem-parsing tabel dari respons API: " ++ pyStr perr) Option.none

/-- `ShorthornApiScraper._call_api`, as a function of the HTTP response it
observes and of the table-extraction strategies (the `pandas` flavors plus the
generic fallback).  `toStr` is the text coercion applied to every column label
and cell. -/
def callApi {α : Type} (strats : List (String → Except String (List (DataFrame α))))
    (generic : String → Except String (List (DataFrame α))) (toStr : α → String)
    (resp : HttpResult) : Outcome :=
  match resp with
  | HttpResult.exc e => Outcome.error ("Gagal menghubungi API: " ++ e) Option.none
  | HttpResult.resp status body =>
    if raiseForStatus status then
      Outcome.error ("Gagal menghubungi API: " ++ httpErrorMsg status) Option.none
    else if no_results_indicators.any (fun ind => containsSubstr body ind) then
      Outcome.result [] []
    else
      match extractTables strats generic body with
      | (Option.none, perr) => emptyOrParseFailure body perr
      | (some [], perr) => emptyOrParseFailure body perr
      | (some (df :: _), _) =>
        Outcome.result (df.columns.map toStr) (df.values.map (fun r => r.map toStr))

/-- The structured query dict produced by the interpreter: each of the keys
`country`, `province`, `name` is a string or null/absent (`dict.get` does not
distinguish a null value from a missing key). -/
structure ParsedQuery where
  country : Option String
  province : Option String
  name : Option String
deriving DecidableEq

/-- The value `interpret_command` hands to `search`, classified by how the
guard `if not parsed_query or "error" in parsed_query` sees it:
a falsy non-dict (e.g. `json.loads` returned JSON `null`), an empty dict,
a non-empty dict containing the key `"error"` (with its value), or a
non-empty dict without an `"error"` key, read as a `ParsedQuery`. -/
inductive InterpResult where
  | falsyNonDict
  | emptyDict
  | errorDict (details : Option String)
  | query (q : ParsedQuery)
deriving DecidableEq

/-- The query parameters of the single `requests.get` call: `l` the location
code string and `v` the free-text name filter. -/
structure Params where
  l : String
  v : String
deriving DecidableEq

/-- Line 114 of `search`: Python `parsed_query.get('name') or ''` — a falsy
name (null/absent or empty string) defaults to the empty string. -/
def resolveV : Option String → String
  | some s => if s = "" then "" else s
  | Option.none => ""

/-- Error message for an unrecognized country (line 121). -/
def unknownCountryMsg (c : String) : String :=
  "Negara tidak dikenal: " ++ c

/-- Error message for an unrecognized province (line 127). -/
def unknownProvinceMsg (p c : String) : String :=
  "Provinsi/Negara Bagian tidak dikenal \x27" ++ p ++ "\x27 untuk " ++ c

/-- `ShorthornApiScraper.search` (lines 103-133), as a function of the
interpreter output and of the HTTP environment `env` mapping the request
parameters to the observed HTTP result.  Python truthiness is modelled
faithfully: `if country:` and `if province:` are false for null and for the
empty string; `if not country_data:` is false exactly when the registry lookup
found an entry; `if not province_code:` is true for a missing or empty code.
A falsy non-dict interpreter value makes `parsed_query.get("error")` raise an
uncaught `AttributeError`. -/
def search {α : Type} (strats : List (String → Except String (List (DataFrame α))))
    (generic : String → Except String (List (DataFrame α))) (toStr : α → String)
    (env : Params → HttpResult) (interp : InterpResult) : Outcome :=
  match interp with
  | InterpResult.falsyNonDict => Outcome.crash "AttributeError"
  | InterpResult.emptyDict => Outcome.error "Gagal menafsirkan perintah." Option.none
  | InterpResult.errorDict d => Outcome.error "Gagal menafsirkan perintah." d
  | InterpResult.query q =>
    let v := resolveV q.name
    match q.country with
    | Option.none => callApi strats generic toStr (env ⟨"", v⟩)
    | some c =>
      if c = "" then callApi strats generic toStr (env ⟨"", v⟩)
      else
        match LOCATION_DATA.lookup (strLower c) with
        | Option.none => Outcome.error (unknownCountryMsg c) Option.none
        | some cd =>
          match q.province with
          | Option.none => callApi strats generic toStr (env ⟨cd.api_code ++ "|", v⟩)
          | some p =>
            if p = "" then callApi strats generic toStr (env ⟨cd.api_code ++ "|", v⟩)
            else
              match cd.provinces.lookup (strLower p) with
              | Option.none => Outcome.error (unknownProvinceMsg p c) Option.none
              | some pc =>
                if pc = "" then Outcome.error (unknownProvinceMsg p c) Option.none
                else callApi strats generic toStr (env ⟨cd.api_code ++ "|" ++ pc, v⟩)

/-! ## Concrete fixtures used to instantiate the theorems -/

/-- A table-extraction strategy that always raises. -/
def flavorBoom : String → Except String (List (DataFrame String)) :=
  fun _ => Except.error "flavor boom"

/-- A generic fallback extraction attempt that always raises. -/
def genericBoom : String → Except String (List (DataFrame String)) :=
  fun _ => Except.error "generic boom"

/-- A strategy extracting one concrete 2x2 table. -/
def stratTwoByTwo : String → Except String (List (DataFrame String)) :=
  fun _ => Except.ok [DataFrame.mk ["A", "B"] [["1", "2"], ["3", "4"]]]

/-- A strategy extracting one concrete single-cell table. -/
def stratZ : String → Except String (List (DataFrame String)) :=
  fun _ => Except.ok [DataFrame.mk ["Z"] [["9"]]]

/-- An HTTP environment in which the transport always raises. -/
def envDown : Params → HttpResult :=
  fun _ => HttpResult.exc "down"

/-- An HTTP environment echoing the request parameters into the exception
message, making the issued parameters observable. -/
def envEcho : Params → HttpResult :=
  fun p => HttpResult.exc (p.l ++ ";" ++ p.v)

/-! ## Helper lemmas -/

/-- A successful association-list lookup returns a value stored in the list. -/
theorem lookup_mem {α β : Type} [BEq α] {l : List (α × β)} {a : α} {b : β}
    (h : l.lookup a = some b) : ∃ k, (k, b) ∈ l := by
  induction l with
  | nil => simp [List.lookup] at h
  | cons hd tl ih =>
    obtain ⟨k, v⟩ := hd
    rw [List.lookup] at h
    cases hab : a == k with
    | true =>
      rw [hab] at h
      simp only [Option.some.injEq] at h
      exact ⟨k, by simp [h]⟩
    | false =>
      rw [hab] at h
      obtain ⟨k2, hk2⟩ := ih h
      exact ⟨k2, List.mem_cons_of_mem _ hk2⟩

/-- The empty string is not a registered country name. -/
theorem registry_no_empty_country_key : LOCATION_DATA.lookup "" = Option.none := by decide

/-- No registered country has the empty string as a province name. -/
theorem registry_no_empty_province_key :
    LOCATION_DATA.all (fun ce => (ce.2.provinces.lookup "").isNone) = true := by decide

/-- Every registered province code is a non-empty string (registry invariant). -/
theorem registry_province_codes_nonempty :
    LOCATION_DATA.all (fun ce => ce.2.provinces.all (fun pe => !(pe.2 == ""))) = true := by decide

/-- Facts about a registry entry obtained by lookup: no empty province key and
all its province codes non-empty. -/
theorem lookup_country_entry_facts {c : String} {cd : LocationEntry}
    (h : LOCATION_DATA.lookup c = some cd) :
    cd.provinces.lookup "" = Option.none ∧
      ∀ p pc, cd.provinces.lookup p = some pc → pc ≠ "" := by
  obtain ⟨k, hk⟩ := lookup_mem h
  constructor
  · have hall := List.all_eq_true.mp registry_no_empty_province_key _ hk
    simpa [Option.isNone_iff_eq_none] using hall
  · intro p pc hpc hpcE
    have hall := List.all_eq_true.mp registry_province_codes_nonempty _ hk
    obtain ⟨k2, hk2⟩ := lookup_mem hpc
    have := List.all_eq_true.mp hall _ hk2
    simp [hpcE] at this

/-- A country whose lowercased name is registered is not the empty string. -/
theorem lookup_country_ne_empty {c : String} {cd : LocationEntry}
    (h : LOCATION_DATA.lookup (strLower c) = some cd) : c ≠ "" := by
  intro hE
  subst hE
  rw [show strLower "" = "" from rfl, registry_no_empty_country_key] at h
  exact Option.noConfusion h

/-- A province whose lowercased name is registered for an entry obtained from
the registry is not the empty string. -/
theorem lookup_province_ne_empty {c p : String} {cd : LocationEntry} {pc : String}
    (hc : LOCATION_DATA.lookup (strLower c) = some cd)
    (hp : cd.provinces.lookup (strLower p) = some pc) : p ≠ "" := by
  intro hE
  subst hE
  rw [show strLower "" = "" from rfl, (lookup_country_entry_facts hc).1] at hp
  exact Option.noConfusion hp

/-! ## Claim theorems -/

/-- C1: for every response body that contains one of the four exact,
case-sensitive sentinel substrings, retrieval returns the empty result
(header = [], data = []) without attempting table extraction — the outcome is
the same for arbitrary extraction strategies, so any embedded table in the
body is ignored. -/
theorem callApi_primary_sentinel {α : Type}
    (strats : List (String → Except String (List (DataFrame α))))
    (generic : String → Except String (List (DataFrame α))) (toStr : α → String)
    (status : Nat) (body : String)
    (hstatus : raiseForStatus status = false)
    (hsent : no_results_indicators.any (fun ind => containsSubstr body ind) = true) :
    callApi strats generic toStr (HttpResult.resp status body) = Outcome.result [] [] := by
  simp [callApi, hstatus, hsent]

/-- Witness for C1 at a concrete body carrying the first sentinel phrase next
to an embedded table, with a strategy that would extract that table. -/
theorem callApi_primary_sentinel_witness :
    raiseForStatus 200 = false ∧
    no_results_indicators.any (fun ind => containsSubstr
      "<p>No records found matching your criteria</p><table><tr><td>x</td></tr></table>" ind) = true ∧
    callApi [fun _ => Except.ok [DataFrame.mk ["H"] [["x"]]]]
      (fun _ => Except.error "gen") id
      (HttpResult.resp 200
        "<p>No records found matching your criteria</p><table><tr><td>x</td></tr></table>") =
      Outcome.result [] [] :=
  ⟨by decide, by decide,
    callApi_primary_sentinel _ _ _ _ _ (by decide) (by decide)⟩

/-- C2: when no primary sentinel matched and no strategy extracted a table
(df_list is None or empty), retrieval returns the empty result exactly when
the lowercased body contains one of the four secondary substrings, and the
wrapped parse error otherwise — never the empty result in the latter case. -/
theorem callApi_secondary_disambiguation {α : Type}
    (strats : List (String → Except String (List (DataFrame α))))
    (generic : String → Except String (List (DataFrame α))) (toStr : α → String)
    (status : Nat) (body : String)
    (hstatus : raiseForStatus status = false)
    (hsent : no_results_indicators.any (fun ind => containsSubstr body ind) = false)
    (hfail : (extractTables strats generic body).1 = Option.none ∨
      (extractTables strats generic body).1 = some []) :
    (secondary_indicators.any (fun p => containsSubstr (strLower body) p) = true →
      callApi strats generic toStr (HttpResult.resp status body) = Outcome.result [] []) ∧
    (secondary_indicators.any (fun p => containsSubstr (strLower body) p) = false →
      callApi strats generic toStr (HttpResult.resp status body) =
        Outcome.error ("Gagal mem-parsing tabel dari respons API: " ++
          pyStr (extractTables strats generic body).2) Option.none) := by
  rcases hET : extractTables strats generic body with ⟨dfl, perr⟩
  rw [hET] at hfail
  simp only at hfail
  constructor <;> intro hsec
  · rcases hfail with h | h <;> subst h <;>
      simp [callApi, hstatus, hsent, hET, emptyOrParseFailure, hsec]
  · rcases hfail with h | h <;> subst h <;>
      simp [callApi, hstatus, hsent, hET, emptyOrParseFailure, hsec]

/-- Witness for C2 at a concrete sentinel-free body on which every strategy
fails: the outcome is the wrapped parse error, not the empty result. -/
theorem callApi_secondary_disambiguation_witness :
    raiseForStatus 200 = false ∧
    no_results_indicators.any (fun ind =>
      containsSubstr "<div>garbled markup</div>" ind) = false ∧
    ((extractTables [flavorBoom] genericBoom "<div>garbled markup</div>").1 = Option.none ∨
      (extractTables [flavorBoom] genericBoom "<div>garbled markup</div>").1 = some []) ∧
    (secondary_indicators.any (fun p =>
      containsSubstr (strLower "<div>garbled markup</div>") p) = false →
      callApi [flavorBoom] genericBoom id
        (HttpResult.resp 200 "<div>garbled markup</div>") =
        Outcome.error ("Gagal mem-parsing tabel dari respons API: " ++
          pyStr (extractTables [flavorBoom] genericBoom "<div>garbled markup</div>").2)
          Option.none) :=
  ⟨by decide, by decide, Or.inl rfl,
    (callApi_secondary_disambiguation [flavorBoom] genericBoom id 200
      "<div>garbled markup</div>" (by decide) (by decide) (Or.inl rfl)).2⟩

/-- C3: a non-empty country that is not registered (after lowercasing) makes
`search` return the unknown-country error, and a non-empty province that is
not registered for a registered country makes it return the unknown-province
error; both outcomes are independent of the HTTP environment `env`, so the
HTTP call is never made and no unfiltered search happens. -/
theorem search_unknown_location_fails :
    (∀ (α : Type) (strats : List (String → Except String (List (DataFrame α))))
      (generic : String → Except String (List (DataFrame α))) (toStr : α → String)
      (env : Params → HttpResult) (q : ParsedQuery) (c : String),
      q.country = some c → c ≠ "" → LOCATION_DATA.lookup (strLower c) = Option.none →
      search strats generic toStr env (InterpResult.query q) =
        Outcome.error (unknownCountryMsg c) Option.none) ∧
    (∀ (α : Type) (strats : List (String → Except String (List (DataFrame α))))
      (generic : String → Except String (List (DataFrame α))) (toStr : α → String)
      (env : Params → HttpResult) (q : ParsedQuery) (c p : String) (cd : LocationEntry),
      q.country = some c → LOCATION_DATA.lookup (strLower c) = some cd →
      q.province = some p → p ≠ "" → cd.provinces.lookup (strLower p) = Option.none →
      search strats generic toStr env (InterpResult.query q) =
        Outcome.error (unknownProvinceMsg p c) Option.none) := by
  constructor
  · intro α strats generic toStr env q c hc hcne hcd
    obtain ⟨qc, qp, qn⟩ := q
    simp only at hc
    subst hc
    simp [search, hcne, hcd]
  · intro α strats generic toStr env q c p cd hc hcd hp hpne hpc
    obtain ⟨qc, qp, qn⟩ := q
    simp only at hc hp
    subst hc
    subst hp
    have hcne : c ≠ "" := lookup_country_ne_empty hcd
    simp [search, hcne, hcd, hpne, hpc]

/-- Witness for C3: country Germany is rejected; province Texas is rejected
for country Canada; both with a live environment that would answer. -/
theorem search_unknown_location_fails_witness :
    ((⟨some "Germany", Option.none, Option.none⟩ : ParsedQuery).country = some "Germany" ∧
      "Germany" ≠ "" ∧ LOCATION_DATA.lookup (strLower "Germany") = Option.none ∧
      search [flavorBoom] genericBoom id envEcho
        (InterpResult.query ⟨some "Germany", Option.none, Option.none⟩) =
        Outcome.error (unknownCountryMsg "Germany") Option.none) ∧
    ((⟨some "Canada", some "Texas", Option.none⟩ : ParsedQuery).country = some "Canada" ∧
      LOCATION_DATA.lookup (strLower "Canada") = some ⟨"Canada",
        [("alberta", "AB"), ("ontario", "ON"), ("quebec", "QC"), ("saskatchewan", "SK")]⟩ ∧
      (⟨some "Canada", some "Texas", Option.none⟩ : ParsedQuery).province = some "Texas" ∧
      "Texas" ≠ "" ∧
      (LocationEntry.mk "Canada"
        [("alberta", "AB"), ("ontario", "ON"), ("quebec", "QC"), ("saskatchewan", "SK")]).provinces.lookup
          (strLower "Texas") = Option.none ∧
      search [flavorBoom] genericBoom id envEcho
        (InterpResult.query ⟨some "Canada", some "Texas", Option.none⟩) =
        Outcome.error (unknownProvinceMsg "Texas" "Canada") Option.none) :=
  ⟨⟨rfl, by decide, by decide,
    search_unknown_location_fails.1 String [flavorBoom] genericBoom id envEcho
      ⟨some "Germany", Option.none, Option.none⟩ "Germany" rfl (by decide) (by decide)⟩,
   ⟨rfl, by decide, rfl, by decide, by decide,
    search_unknown_location_fails.2 String [flavorBoom] genericBoom id envEcho
      ⟨some "Canada", some "Texas", Option.none⟩ "Canada" "Texas"
      ⟨"Canada", [("alberta", "AB"), ("ontario", "ON"), ("quebec", "QC"), ("saskatchewan", "SK")]⟩
      rfl (by decide) rfl (by decide) (by decide)⟩⟩

/-- C4: for a query whose lowercased country resolves to a registry entry and
whose lowercased province resolves to a code of that entry, `search` issues
the HTTP call with location parameter built exactly as apiCode, a pipe, and
the province code; with no province specified the location parameter is
apiCode followed by a pipe.  The lookups lowercase the input and use exact
key equality, so matching is case-insensitive and never fuzzy. -/
theorem search_builds_location_param :
    (∀ (α : Type) (strats : List (String → Except String (List (DataFrame α))))
      (generic : String → Except String (List (DataFrame α))) (toStr : α → String)
      (env : Params → HttpResult) (q : ParsedQuery) (c p : String)
      (cd : LocationEntry) (pc : String),
      q.country = some c → LOCATION_DATA.lookup (strLower c) = some cd →
      q.province = some p → cd.provinces.lookup (strLower p) = some pc →
      search strats generic toStr env (InterpResult.query q) =
        callApi strats generic toStr
          (env ⟨cd.api_code ++ "|" ++ pc, resolveV q.name⟩)) ∧
    (∀ (α : Type) (strats : List (String → Except String (List (DataFrame α))))
      (generic : String → Except String (List (DataFrame α))) (toStr : α → String)
      (env : Params → HttpResult) (q : ParsedQuery) (c : String) (cd : LocationEntry),
      q.country = some c → LOCATION_DATA.lookup (strLower c) = some cd →
      q.province = Option.none →
      search strats generic toStr env (InterpResult.query q) =
        callApi strats generic toStr (env ⟨cd.api_code ++ "|", resolveV q.name⟩)) := by
  constructor
  · intro α strats generic toStr env q c p cd pc hc hcd hp hpc
    obtain ⟨qc, qp, qn⟩ := q
    simp only at hc hp
    subst hc
    subst hp
    have hcne : c ≠ "" := lookup_country_ne_empty hcd
    have hpne : p ≠ "" := lookup_province_ne_empty hcd hpc
    have hpcne : pc ≠ "" := (lookup_country_entry_facts hcd).2 _ _ hpc
    simp [search, hcne, hcd, hpne, hpc, hpcne]
  · intro α strats generic toStr env q c cd hc hcd hp
    obtain ⟨qc, qp, qn⟩ := q
    simp only at hc hp
    subst hc
    subst hp
    have hcne : c ≠ "" := lookup_country_ne_empty hcd
    simp [search, hcne, hcd]

/-- Witness for C4: mixed-case Canada/Alberta resolves to the parameter
Canada|AB, and Canada without a province resolves to Canada followed by a
bare pipe; the echoing environment makes the issued parameters visible. -/
theorem search_builds_location_param_witness :
    ((⟨some "Canada", some "Alberta", some "Circle M"⟩ : ParsedQuery).country = some "Canada" ∧
      LOCATION_DATA.lookup (strLower "Canada") = some ⟨"Canada",
        [("alberta", "AB"), ("ontario", "ON"), ("quebec", "QC"), ("saskatchewan", "SK")]⟩ ∧
      (⟨some "Canada", some "Alberta", some "Circle M"⟩ : ParsedQuery).province = some "Alberta" ∧
      (LocationEntry.mk "Canada"
        [("alberta", "AB"), ("ontario", "ON"), ("quebec", "QC"), ("saskatchewan", "SK")]).provinces.lookup
          (strLower "Alberta") = some "AB" ∧
      search [flavorBoom] genericBoom id envEcho
        (InterpResult.query ⟨some "Canada", some "Alberta", some "Circle M"⟩) =
        Outcome.error "Gagal menghubungi API: Canada|AB;Circle M" Option.none) ∧
    ((⟨some "Canada", Option.none, Option.none⟩ : ParsedQuery).country = some "Canada" ∧
      (⟨some "Canada", Option.none, Option.none⟩ : ParsedQuery).province = Option.none ∧
      search [flavorBoom] genericBoom id envEcho
        (InterpResult.query ⟨some "Canada", Option.none, Option.none⟩) =
        Outcome.error "Gagal menghubungi API: Canada|;" Option.none) :=
  ⟨⟨rfl, by decide, rfl, by decide,
    by
      have h := search_builds_location_param.1 String [flavorBoom] genericBoom id envEcho
        ⟨some "Canada", some "Alberta", some "Circle M"⟩ "Canada" "Alberta"
        ⟨"Canada", [("alberta", "AB"), ("ontario", "ON"), ("quebec", "QC"), ("saskatchewan", "SK")]⟩
        "AB" rfl (by decide) rfl (by decide)
      exact h.trans (by decide)⟩,
   ⟨rfl, rfl,
    by
      have h := search_builds_location_param.2 String [flavorBoom] genericBoom id envEcho
        ⟨some "Canada", Option.none, Option.none⟩ "Canada"
        ⟨"Canada", [("alberta", "AB"), ("ontario", "ON"), ("quebec", "QC"), ("saskatchewan", "SK")]⟩
        rfl (by decide) rfl
      exact h.trans (by decide)⟩⟩

/-- C5: when no primary sentinel matched and extraction yields a non-empty
table list whose first frame is rectangular with M columns and N rows, the
outcome is the rows result built from that first frame only: the header has
length M, there are N data rows, every row has the length of the header, and
every label and cell goes through the text coercion.  Later frames in the
extracted list do not influence the outcome. -/
theorem callApi_rows_shape {α : Type}
    (strats : List (String → Except String (List (DataFrame α))))
    (generic : String → Except String (List (DataFrame α))) (toStr : α → String)
    (status : Nat) (body : String) (df : DataFrame α) (rest : List (DataFrame α))
    (perr : Option String)
    (hstatus : raiseForStatus status = false)
    (hsent : no_results_indicators.any (fun ind => containsSubstr body ind) = false)
    (hext : extractTables strats generic body = (some (df :: rest), perr))
    (hrect : DataFrame.Rect df) :
    callApi strats generic toStr (HttpResult.resp status body) =
      Outcome.result (df.columns.map toStr) (df.values.map (fun r => r.map toStr)) ∧
    (df.columns.map toStr).length = df.columns.length ∧
    (df.values.map (fun r => r.map toStr)).length = df.values.length ∧
    ∀ r ∈ df.values.map (fun r => r.map toStr),
      r.length = (df.columns.map toStr).length := by
  refine ⟨?_, by simp, by simp, ?_⟩
  · simp [callApi, hstatus, hsent, hext]
  · intro r hr
    obtain ⟨r0, hr0, hmap⟩ := List.mem_map.mp hr
    subst hmap
    simp [hrect r0 hr0]

/-- Witness for C5 at a concrete sentinel-free body and a strategy extracting
a rectangular 2x2 frame followed by a second frame that is ignored. -/
theorem callApi_rows_shape_witness :
    raiseForStatus 200 = false ∧
    no_results_indicators.any (fun ind => containsSubstr "<table>t</table>" ind) = false ∧
    extractTables
      [fun _ => Except.ok [DataFrame.mk ["A", "B"] [["1", "2"], ["3", "4"]],
        DataFrame.mk ["Z"] [["9"]]]] genericBoom "<table>t</table>" =
      (some [DataFrame.mk ["A", "B"] [["1", "2"], ["3", "4"]], DataFrame.mk ["Z"] [["9"]]],
        Option.none) ∧
    DataFrame.Rect (DataFrame.mk ["A", "B"] [["1", "2"], ["3", "4"]]) ∧
    callApi
      [fun _ => Except.ok [DataFrame.mk ["A", "B"] [["1", "2"], ["3", "4"]],
        DataFrame.mk ["Z"] [["9"]]]] genericBoom id
      (HttpResult.resp 200 "<table>t</table>") =
      Outcome.result ["A", "B"] [["1", "2"], ["3", "4"]] :=
  ⟨by decide, by decide, rfl, by unfold DataFrame.Rect; decide,
    (callApi_rows_shape
      [fun _ => Except.ok [DataFrame.mk ["A", "B"] [["1", "2"], ["3", "4"]],
        DataFrame.mk ["Z"] [["9"]]]] genericBoom id 200 "<table>t</table>"
      (DataFrame.mk ["A", "B"] [["1", "2"], ["3", "4"]]) [DataFrame.mk ["Z"] [["9"]]]
      Option.none (by decide) (by decide) rfl (by unfold DataFrame.Rect; decide)).1⟩

/-- Auxiliary for C6: if every strategy in the list raises, the flavor loop
ends with df_list unset, whatever exception was previously recorded. -/
theorem tryFlavors_all_fail {α : Type} (body : String)
    (strats : List (String → Except String (List (DataFrame α))))
    (hfail : ∀ s ∈ strats, ∃ e, s body = Except.error e) :
    ∀ perr, (tryFlavors body strats perr).1 = Option.none := by
  induction strats with
  | nil => intro perr; rfl
  | cons s rest ih =>
    intro perr
    obtain ⟨e, he⟩ := hfail s (List.mem_cons_self _ _)
    rw [tryFlavors, he]
    exact ih (fun s2 hs2 => hfail s2 (List.mem_cons_of_mem _ hs2)) _

/-- Auxiliary for C6: the flavor loop stops at the first strategy that does
not raise and keeps its output, never consulting the strategies after it. -/
theorem tryFlavors_first_ok {α : Type} (body : String)
    (strats1 : List (String → Except String (List (DataFrame α))))
    (s : String → Except String (List (DataFrame α)))
    (strats2 : List (String → Except String (List (DataFrame α))))
    (ts : List (DataFrame α))
    (hfail : ∀ s2 ∈ strats1, ∃ e, s2 body = Except.error e)
    (hok : s body = Except.ok ts) :
    ∀ perr, (tryFlavors body (strats1 ++ s :: strats2) perr).1 = some ts := by
  induction strats1 with
  | nil => intro perr; rw [List.nil_append, tryFlavors, hok]
  | cons s1 rest ih =>
    intro perr
    obtain ⟨e, he⟩ := hfail s1 (List.mem_cons_self _ _)
    rw [List.cons_append, tryFlavors, he]
    exact ih (fun s2 hs2 => hfail s2 (List.mem_cons_of_mem _ hs2)) _

/-- C6: the strategies are tried in order, advancing only past strategies
that raise; the first non-raising strategy fixes the extracted table list,
independently of the strategies after it and of the generic fallback; the
generic fallback runs exactly when every listed strategy raised, and its own
failure leaves no table list and records its exception. -/
theorem extractTables_ordered_fallback :
    (∀ (α : Type) (strats1 : List (String → Except String (List (DataFrame α))))
      (s : String → Except String (List (DataFrame α)))
      (strats2 : List (String → Except String (List (DataFrame α))))
      (generic : String → Except String (List (DataFrame α)))
      (body : String) (ts : List (DataFrame α)),
      (∀ s2 ∈ strats1, ∃ e, s2 body = Except.error e) → s body = Except.ok ts →
      (extractTables (strats1 ++ s :: strats2) generic body).1 = some ts) ∧
    (∀ (α : Type) (strats : List (String → Except String (List (DataFrame α))))
      (generic : String → Except String (List (DataFrame α)))
      (body : String) (ts : List (DataFrame α)),
      (∀ s2 ∈ strats, ∃ e, s2 body = Except.error e) → generic body = Except.ok ts →
      (extractTables strats generic body).1 = some ts) ∧
    (∀ (α : Type) (strats : List (String → Except String (List (DataFrame α))))
      (generic : String → Except String (List (DataFrame α)))
      (body : String) (e : String),
      (∀ s2 ∈ strats, ∃ e2, s2 body = Except.error e2) → generic body = Except.error e →
      extractTables strats generic body = (Option.none, some e)) := by
  refine ⟨?_, ?_, ?_⟩
  · intro α strats1 s strats2 generic body ts hfail hok
    have h1 := tryFlavors_first_ok body strats1 s strats2 ts hfail hok Option.none
    rcases hT : tryFlavors body (strats1 ++ s :: strats2) Option.none with ⟨dfl, perr⟩
    rw [hT] at h1
    simp only at h1
    subst h1
    simp [extractTables, hT]
  · intro α strats generic body ts hfail hok
    have h1 := tryFlavors_all_fail body strats hfail Option.none
    rcases hT : tryFlavors body strats Option.none with ⟨dfl, perr⟩
    rw [hT] at h1
    simp only at h1
    subst h1
    simp [extractTables, hT, hok]
  · intro α strats generic body e hfail hgen
    have h1 := tryFlavors_all_fail body strats hfail Option.none
    rcases hT : tryFlavors body strats Option.none with ⟨dfl, perr⟩
    rw [hT] at h1
    simp only at h1
    subst h1
    simp [extractTables, hT, hgen]

/-- Witness for C6: with a first strategy that raises, a second that extracts
a table, and a third that would extract a different table, extraction keeps
the second output; when every strategy raises, the generic fallback decides
the outcome in both its success and failure modes. -/
theorem extractTables_ordered_fallback_witness :
    ((∀ s2 ∈ [flavorBoom], ∃ e, s2 "b" = Except.error e) ∧
      stratTwoByTwo "b" = Except.ok [DataFrame.mk ["A", "B"] [["1", "2"], ["3", "4"]]] ∧
      (extractTables ([flavorBoom] ++ stratTwoByTwo ::
        [stratZ]) genericBoom "b").1 =
        some [DataFrame.mk ["A", "B"] [["1", "2"], ["3", "4"]]]) ∧
    ((∀ s2 ∈ [flavorBoom], ∃ e, s2 "b" = Except.error e) ∧
      stratZ "b" = Except.ok [DataFrame.mk ["Z"] [["9"]]] ∧
      (extractTables [flavorBoom] stratZ "b").1 =
        some [DataFrame.mk ["Z"] [["9"]]]) ∧
    ((∀ s2 ∈ [flavorBoom], ∃ e2, s2 "b" = Except.error e2) ∧
      genericBoom "b" = Except.error "generic boom" ∧
      extractTables [flavorBoom] genericBoom "b" =
        (Option.none, some "generic boom")) :=
  ⟨⟨fun s2 hs2 => by
      simp only [List.mem_singleton] at hs2
      exact ⟨"flavor boom", by rw [hs2]; rfl⟩,
    rfl,
    extractTables_ordered_fallback.1 String [flavorBoom] stratTwoByTwo
      [stratZ] genericBoom "b"
      [DataFrame.mk ["A", "B"] [["1", "2"], ["3", "4"]]]
      (fun s2 hs2 => by
        simp only [List.mem_singleton] at hs2
        exact ⟨"flavor boom", by rw [hs2]; rfl⟩) rfl⟩,
   ⟨fun s2 hs2 => by
      simp only [List.mem_singleton] at hs2
      exact ⟨"flavor boom", by rw [hs2]; rfl⟩,
    rfl,
    extractTables_ordered_fallback.2.1 String [flavorBoom]
      stratZ "b" [DataFrame.mk ["Z"] [["9"]]]
      (fun s2 hs2 => by
        simp only [List.mem_singleton] at hs2
        exact ⟨"flavor boom", by rw [hs2]; rfl⟩) rfl⟩,
   ⟨fun s2 hs2 => by
      simp only [List.mem_singleton] at hs2
      exact ⟨"flavor boom", by rw [hs2]; rfl⟩,
    rfl,
    extractTables_ordered_fallback.2.2 String [flavorBoom] genericBoom "b" "generic boom"
      (fun s2 hs2 => by
        simp only [List.mem_singleton] at hs2
        exact ⟨"flavor boom", by rw [hs2]; rfl⟩) rfl⟩⟩

/-- C7 failing input: when the interpretation backend returns a falsy
non-dict JSON value (for example the JSON literal null, which json.loads
decodes to None), the guard at line 108 evaluates
parsed_query.get("error") on that value and an AttributeError escapes
`search` uncaught, so the caller receives neither a result nor an error
object. -/
theorem search_crashes_on_falsy_nondict_interp :
    search [flavorBoom] genericBoom id envDown InterpResult.falsyNonDict =
      Outcome.crash "AttributeError" := rfl

/-- C8 counterexample: a response with the non-2xx status 304 is not turned
into a network error; `raise_for_status` only raises for 4xx/5xx, so the body
is processed normally and here classified as the empty result. -/
theorem callApi_status_304_not_failure :
    callApi [flavorBoom] genericBoom id (HttpResult.resp 304 "No records found") =
      Outcome.result [] [] := by decide

/-- C8 (amended): a transport failure, or a response whose status is 4xx or
5xx, makes retrieval return the network-error outcome; the result does not
depend on the response body or on the extraction strategies, so no sentinel
classification and no table extraction is attempted, and no retry happens
inside this one call. -/
theorem callApi_network_failure :
    (∀ (α : Type) (strats : List (String → Except String (List (DataFrame α))))
      (generic : String → Except String (List (DataFrame α))) (toStr : α → String)
      (msg : String),
      callApi strats generic toStr (HttpResult.exc msg) =
        Outcome.error ("Gagal menghubungi API: " ++ msg) Option.none) ∧
    (∀ (α : Type) (strats : List (String → Except String (List (DataFrame α))))
      (generic : String → Except String (List (DataFrame α))) (toStr : α → String)
      (status : Nat) (body : String),
      400 ≤ status → status < 600 →
      callApi strats generic toStr (HttpResult.resp status body) =
        Outcome.error ("Gagal menghubungi API: " ++ httpErrorMsg status) Option.none) := by
  constructor
  · intro α strats generic toStr msg
    rfl
  · intro α strats generic toStr status body h1 h2
    have hrs : raiseForStatus status = true := by
      simp [raiseForStatus, h1, h2]
    simp [callApi, hrs]

/-- Witness for C8 (amended) at a raised transport exception and at status
500 with a sentinel-free body and strategies that would extract a table. -/
theorem callApi_network_failure_witness :
    callApi [stratTwoByTwo] genericBoom id (HttpResult.exc "timeout") =
      Outcome.error "Gagal menghubungi API: timeout" Option.none ∧
    ((400:Nat) ≤ 500 ∧ (500:Nat) < 600 ∧
      callApi [stratTwoByTwo] genericBoom id (HttpResult.resp 500 "<table>t</table>") =
        Outcome.error ("Gagal menghubungi API: " ++ httpErrorMsg 500) Option.none) :=
  ⟨callApi_network_failure.1 String [stratTwoByTwo] genericBoom id "timeout",
   by decide, by decide,
   callApi_network_failure.2 String [stratTwoByTwo] genericBoom id 500 "<table>t</table>"
     (by decide) (by decide)⟩

/-- C9: with no country in the interpreted query, `search` issues the HTTP
call with an empty location parameter, and the name filter is the Python
expression name-or-empty: an absent or null name becomes the empty string and
any string passes through unchanged, with no case normalization. -/
theorem search_no_country_and_name_passthrough :
    (∀ (α : Type) (strats : List (String → Except String (List (DataFrame α))))
      (generic : String → Except String (List (DataFrame α))) (toStr : α → String)
      (env : Params → HttpResult) (q : ParsedQuery),
      q.country = Option.none →
      search strats generic toStr env (InterpResult.query q) =
        callApi strats generic toStr (env ⟨"", resolveV q.name⟩)) ∧
    (∀ s : String, resolveV (some s) = s) ∧
    resolveV Option.none = "" := by
  refine ⟨?_, ?_, rfl⟩
  · intro α strats generic toStr env q hq
    obtain ⟨qc, qp, qn⟩ := q
    simp only at hq
    subst hq
    simp [search]
  · intro s
    by_cases hs : s = ""
    · subst hs; rfl
    · simp [resolveV, hs]

/-- Witness for C9: no country with a mixed-case name issues an unfiltered
call carrying the name verbatim. -/
theorem search_no_country_and_name_passthrough_witness :
    ((⟨Option.none, Option.none, some "Circle M"⟩ : ParsedQuery).country = Option.none ∧
      search [flavorBoom] genericBoom id envEcho
        (InterpResult.query ⟨Option.none, Option.none, some "Circle M"⟩) =
        Outcome.error "Gagal menghubungi API: ;Circle M" Option.none) ∧
    resolveV (some "Circle M") = "Circle M" :=
  ⟨⟨rfl,
    by
      have h := search_no_country_and_name_passthrough.1 String [flavorBoom] genericBoom id
        envEcho ⟨Option.none, Option.none, some "Circle M"⟩ rfl
      exact h.trans (by decide)⟩,
   search_no_country_and_name_passthrough.2.1 "Circle M"⟩

/-- C10: a country equal to the empty string is falsy for the Python guard
at line 118, so `search` performs the unfiltered-location call instead of
failing; likewise an empty-string province for a registered country is falsy
at line 124 and the location parameter ends in a bare pipe. -/
theorem search_empty_strings_treated_as_absent :
    (∀ (α : Type) (strats : List (String → Except String (List (DataFrame α))))
      (generic : String → Except String (List (DataFrame α))) (toStr : α → String)
      (env : Params → HttpResult) (q : ParsedQuery),
      q.country = some "" →
      search strats generic toStr env (InterpResult.query q) =
        callApi strats generic toStr (env ⟨"", resolveV q.name⟩)) ∧
    (∀ (α : Type) (strats : List (String → Except String (List (DataFrame α))))
      (generic : String → Except String (List (DataFrame α))) (toStr : α → String)
      (env : Params → HttpResult) (q : ParsedQuery) (c : String) (cd : LocationEntry),
      q.country = some c → LOCATION_DATA.lookup (strLower c) = some cd →
      q.province = some "" →
      search strats generic toStr env (InterpResult.query q) =
        callApi strats generic toStr (env ⟨cd.api_code ++ "|", resolveV q.name⟩)) := by
  constructor
  · intro α strats generic toStr env q hq
    obtain ⟨qc, qp, qn⟩ := q
    simp only at hq
    subst hq
    simp [search]
  · intro α strats generic toStr env q c cd hc hcd hp
    obtain ⟨qc, qp, qn⟩ := q
    simp only at hc hp
    subst hc
    subst hp
    have hcne : c ≠ "" := lookup_country_ne_empty hcd
    simp [search, hcne, hcd]

/-- Witness for C10: empty-string country searches unfiltered rather than
failing, and empty-string province for Canada yields the bare-pipe location. -/
theorem search_empty_strings_treated_as_absent_witness :
    ((⟨some "", Option.none, Option.none⟩ : ParsedQuery).country = some "" ∧
      search [flavorBoom] genericBoom id envEcho
        (InterpResult.query ⟨some "", Option.none, Option.none⟩) =
        Outcome.error "Gagal menghubungi API: ;" Option.none) ∧
    ((⟨some "Canada", some "", Option.none⟩ : ParsedQuery).country = some "Canada" ∧
      LOCATION_DATA.lookup (strLower "Canada") = some ⟨"Canada",
        [("alberta", "AB"), ("ontario", "ON"), ("quebec", "QC"), ("saskatchewan", "SK")]⟩ ∧
      (⟨some "Canada", some "", Option.none⟩ : ParsedQuery).province = some "" ∧
      search [flavorBoom] genericBoom id envEcho
        (InterpResult.query ⟨some "Canada", some "", Option.none⟩) =
        Outcome.error "Gagal menghubungi API: Canada|;" Option.none) :=
  ⟨⟨rfl,
    by
      have h := search_empty_strings_treated_as_absent.1 String [flavorBoom] genericBoom id
        envEcho ⟨some "", Option.none, Option.none⟩ rfl
      exact h.trans (by decide)⟩,
   ⟨rfl, by decide, rfl,
    by
      have h := search_empty_strings_treated_as_absent.2 String [flavorBoom] genericBoom id
        envEcho ⟨some "Canada", some "", Option.none⟩ "Canada"
        ⟨"Canada", [("alberta", "AB"), ("ontario", "ON"), ("quebec", "QC"), ("saskatchewan", "SK")]⟩
        rfl (by decide) rfl
      exact h.trans (by decide)⟩⟩
